import Mathlib

/-!
Shallow embedding of the InstaAutoDM cron job (`src/index.js`): an engine
that scans Instagram post comments for active automations and sends
automated comment replies and direct messages, with deduplication,
rolling-window rate limiting and access-token refresh.

Modelling conventions:
* Times are `Nat` milliseconds since the epoch (JS `Date.getTime()`).
* Remote HTTP calls are oracles carried by an `Env` record; each oracle
  result captures the observable outcome of the corresponding `fetch`.
* The MongoDB collections touched by the job are the fields of `St`;
  inserts are list appends, `updateOne` calls are recorded in write logs.
* JS falsiness of `""`, `0` and `undefined` in `x || d` expressions is
  modelled by `jsOrStr` / `rateLimitEff`.
-/

/-- `hay` starts with `needle` (char-list level model of a JS string
prefix test used to implement `String.prototype.includes`). -/
def startsWithList : List Char → List Char → Bool
  | _, [] => true
  | [], _ :: _ => false
  | a :: as, b :: bs => a == b && startsWithList as bs

/-- `needle` occurs contiguously inside `hay`: model of JS
`hay.includes(needle)` on the char lists of the two strings. -/
def containsList : List Char → List Char → Bool
  | [], needle => startsWithList [] needle
  | a :: t, needle => startsWithList (a :: t) needle || containsList t needle

/-- Model of JS `s.toLowerCase()` as the char list of `s` mapped through
`Char.toLower` (faithful on ASCII, which is all the engine compares). -/
def jsToLower (s : String) : List Char :=
  s.data.map Char.toLower

/-- JS `x || d` for an optional string field: `undefined` and `""` are
falsy, any other string is returned unchanged. -/
def jsOrStr (x : Option String) (d : String) : String :=
  match x with
  | none => d
  | some s => if s = "" then d else s

/-- Default comment-reply text (`index.js` line 247). -/
def defaultCommentReply : String := "Thanks! Please check your DMs."

/-- Default opening message (`index.js` lines 272-273). -/
def defaultOpeningMessage : String :=
  "Hey there! I\x27m so happy you\x27re here, thanks so much for your interest 😊\n\nClick below and I\x27ll send you the link in just a sec ✨"

/-- Default quick-reply button label (`index.js` line 275). -/
def defaultButtonText : String := "Send me the link"

/-- Default branding suffix (`index.js` line 302). -/
def defaultBrandingMessage : String :=
  "⚡ Sent via ChatAutoDM — grow your DMs on autopilot"

/-- A comment fetched from the remote API (the fields `getPostComments`
projects out: id, text, author handle, timestamp). -/
structure Comment where
  id : String
  text : String
  username : String
  timestamp : String
  deriving DecidableEq, Repr

/-- An `automations` collection document (the fields the job reads). -/
structure Automation where
  id : Nat
  instagramAccountId : Nat
  postId : Option Nat
  triggerKeyword : String
  replyToComments : Bool
  commentReply : Option String
  useOpeningMessage : Bool
  openingMessage : Option String
  buttonText : Option String
  message : String
  addBranding : Bool
  brandingMessage : Option String
  rateLimit : Option Nat
  lastChecked : Option Nat
  active : Bool
  deriving DecidableEq, Repr

/-- A `posts` collection document. -/
structure Post where
  id : Nat
  instagramAccountId : Nat
  instagramId : String
  deriving DecidableEq, Repr

/-- An `instagramAccounts` collection document. -/
structure Account where
  id : Nat
  username : String
  instagramId : String
  accessToken : String
  deriving DecidableEq, Repr

/-- A `directMessages` collection document. Failed inserts carry no
`type` field and may carry no `message` (raw `automation.openingMessage`),
hence the `Option` types. -/
structure DMRecord where
  automationId : Nat
  recipientUsername : String
  commentId : String
  message : Option String
  type : Option String
  status : String
  sentAt : Nat
  deriving DecidableEq, Repr

/-- A `commentReplies` collection document; `reply` stores the raw
`automation.commentReply` field, which may be absent. -/
structure ReplyRecord where
  automationId : Nat
  commentId : String
  username : String
  reply : Option String
  status : String
  sentAt : Nat
  deriving DecidableEq, Repr

/-- The `$set` payload of the `instagramAccounts` `updateOne` performed
after a successful token refresh. -/
structure AccountWrite where
  accountId : Nat
  accessToken : String
  expiresAt : Nat
  lastTokenRefresh : Nat
  deriving DecidableEq, Repr

/-- Oracles for the remote API plus the evaluation clock. `fetch` takes
the remote post id and the `since` bound and yields the comment page or a
failure; `lookup` resolves a handle to a remote user id (`none` covers
both a failed search call and an empty result); `replyOk` / `dmOk` give
the outcomes of the reply POST and the message POST. -/
structure Env where
  now : Nat
  probeOk : String → Bool
  refresh : String → Option (String × Nat)
  fetch : String → Nat → Except Unit (List Comment)
  lookup : String → Option String
  replyOk : Bool
  dmOk : Bool

/-- The read-only collections the run iterates over. -/
structure World where
  automations : List Automation
  accounts : List Account
  posts : List Post
  deriving Repr

/-- The mutable persistent state plus logs of the remote calls issued:
`fetchCalls` one entry per `getPostComments` call, `replyCalls` one per
`replyToComment` call (comment id, reply text), `dmCalls` one per DM
dispatch attempt (recipient handle), `lastCheckedWrites` one per
checkpoint `updateOne` (automation id, new value), `statWrites` one per
stats `updateOne` after a successful send. -/
structure St where
  directMessages : List DMRecord
  commentReplies : List ReplyRecord
  accountWrites : List AccountWrite
  lastCheckedWrites : List (Nat × Nat)
  statWrites : List (Nat × Nat)
  fetchCalls : List (String × Nat)
  replyCalls : List (String × String)
  dmCalls : List String
  deriving DecidableEq, Repr

/-- The empty database. -/
def initSt : St :=
  { directMessages := [], commentReplies := [], accountWrites := []
    lastCheckedWrites := [], statWrites := [], fetchCalls := []
    replyCalls := [], dmCalls := [] }

/-- The object `checkComments` resolves with (`index.js` lines 175-180). -/
structure RunSummary where
  success : Bool
  automationsProcessed : Nat
  commentsProcessed : Nat
  messagesSent : Nat
  deriving DecidableEq, Repr

/-- Trigger test (`index.js` lines 205-207): keyword `"any"` matches
everything, otherwise lower-cased substring containment. -/
def triggerMatched (a : Automation) (c : Comment) : Bool :=
  a.triggerKeyword == "any" ||
    containsList (jsToLower c.text) (jsToLower a.triggerKeyword)

/-- Dedup query (`index.js` lines 216-219): `findOne` on
`(automationId, recipientUsername)`, any status. -/
def hasExistingDM (s : St) (aid : Nat) (u : String) : Bool :=
  (s.directMessages.find? fun r =>
    r.automationId == aid && r.recipientUsername == u).isSome

/-- One hour in milliseconds. -/
def oneHourMs : Nat := 60 * 60 * 1000

/-- Rate-limit window count (`index.js` lines 227-234): `sent` records of
the automation with `sentAt ≥ now - 1h`. -/
def recentSentCount (s : St) (aid : Nat) (now : Nat) : Nat :=
  (s.directMessages.filter fun r =>
    r.automationId == aid && decide (now - oneHourMs ≤ r.sentAt) &&
      r.status == "sent").length

/-- Effective ceiling `automation.rateLimit || 10` (`index.js` line 236):
an absent field and the falsy `0` both yield `10`. -/
def rateLimitEff (a : Automation) : Nat :=
  match a.rateLimit with
  | none => 10
  | some n => if n = 0 then 10 else n

/-- The plain-DM text (`index.js` lines 299-303): the automation message,
with the branding suffix appended after a blank line when enabled. -/
def brandedMessage (a : Automation) : String :=
  a.message ++
    (if a.addBranding then "\n\n" ++ jsOrStr a.brandingMessage defaultBrandingMessage
     else "")

/-- Comment-reply step (`index.js` lines 242-265): when enabled, call
`replyToComment` with `commentReply || default`; on success insert a
`commentReplies` record whose `reply` field is the raw `commentReply`;
a failure is caught and logged only. -/
def replyStep (env : Env) (a : Automation) (c : Comment) (s : St) : St :=
  if a.replyToComments then
    let s1 := { s with replyCalls :=
      s.replyCalls ++ [(c.id, jsOrStr a.commentReply defaultCommentReply)] }
    if env.replyOk then
      { s1 with commentReplies := s1.commentReplies ++
        [{ automationId := a.id, commentId := c.id, username := c.username
           reply := a.commentReply, status := "sent", sentAt := env.now }] }
    else s1
  else s

/-- The `directMessages` record inserted when the DM attempt fails
(`index.js` lines 341-350): raw message field, no `type`. -/
def failedDMRecord (env : Env) (a : Automation) (c : Comment) : DMRecord :=
  { automationId := a.id, recipientUsername := c.username, commentId := c.id
    message := if a.useOpeningMessage then a.openingMessage else some a.message
    type := none, status := "failed", sentAt := env.now }

/-- The `directMessages` record inserted after a successful send
(`index.js` lines 287-296 / 313-322). -/
def sentDMRecord (env : Env) (a : Automation) (c : Comment) : DMRecord :=
  if a.useOpeningMessage then
    { automationId := a.id, recipientUsername := c.username, commentId := c.id
      message := some (jsOrStr a.openingMessage defaultOpeningMessage)
      type := some "opening", status := "sent", sentAt := env.now }
  else
    { automationId := a.id, recipientUsername := c.username, commentId := c.id
      message := some (brandedMessage a)
      type := some "direct", status := "sent", sentAt := env.now }

/-- DM step (`index.js` lines 267-351): both `sendDirectMessage` and
`sendDirectMessageWithButton` first resolve the handle (a failed lookup
throws) and then POST the message; the caller inserts a `sent` record and
updates the automation stats on success, and inserts a `failed` record in
its catch block on any thrown error. -/
def dmStep (env : Env) (a : Automation) (c : Comment) (s : St) : St :=
  let s1 := { s with dmCalls := s.dmCalls ++ [c.username] }
  match env.lookup c.username with
  | none =>
      { s1 with directMessages := s1.directMessages ++ [failedDMRecord env a c] }
  | some _ =>
      if env.dmOk then
        { s1 with
          directMessages := s1.directMessages ++ [sentDMRecord env a c]
          statWrites := s1.statWrites ++ [(a.id, env.now)] }
      else
        { s1 with directMessages := s1.directMessages ++ [failedDMRecord env a c] }

/-- Per-comment body of the loop in `processPostComments` (`index.js`
lines 203-352): trigger test, dedup query, rolling-window rate limit,
then the reply step and the DM step. -/
def processComment (env : Env) (a : Automation) (s : St) (c : Comment) : St :=
  if triggerMatched a c = false then s
  else if hasExistingDM s a.id c.username then s
  else if rateLimitEff a ≤ recentSentCount s a.id env.now then s
  else dmStep env a c (replyStep env a c s)

/-- `getPostComments` (`index.js` lines 361-385): any fetch failure is
caught and an empty list returned. -/
def getPostComments (env : Env) (postId : String) (since : Nat) : List Comment :=
  match env.fetch postId since with
  | Except.error _ => []
  | Except.ok cs => cs

/-- `processPostComments` (`index.js` lines 190-359): read the checkpoint
from the in-memory automation (`lastChecked || epoch`), fetch comments
since it, process each in order, then unconditionally write
`lastChecked := now`. -/
def processPostComments (env : Env) (a : Automation) (post : Post) (s : St) : St :=
  let lastChecked := a.lastChecked.getD 0
  let comments := getPostComments env post.instagramId lastChecked
  let s1 := { s with fetchCalls := s.fetchCalls ++ [(post.instagramId, lastChecked)] }
  let s2 := comments.foldl (processComment env a) s1
  { s2 with lastCheckedWrites := s2.lastCheckedWrites ++ [(a.id, env.now)] }

/-- `refreshInstagramToken` (`index.js` lines 15-36): the refresh oracle,
yielding the new token and its `expires_in` (seconds) or `none`. -/
def refreshInstagramToken (env : Env) (accessToken : String) : Option (String × Nat) :=
  env.refresh accessToken

/-- `getValidTokenForAccount` (`index.js` lines 39-94): fetch the account,
probe the stored token, on probe failure attempt a refresh; a successful
refresh performs the single `updateOne` with the new token, the expiry
`now + expires_in` and the refresh timestamp. Returns the usable token (or
`none`) together with the account writes performed. -/
def getValidTokenForAccount (env : Env) (w : World) (accountId : Nat) :
    Option String × List AccountWrite :=
  match w.accounts.find? (fun acc => acc.id == accountId) with
  | none => (none, [])
  | some account =>
    if env.probeOk account.accessToken then (some account.accessToken, [])
    else
      match refreshInstagramToken env account.accessToken with
      | none => (none, [])
      | some (newToken, expiresIn) =>
          (some newToken,
           [{ accountId := account.id, accessToken := newToken
              expiresAt := env.now + 1000 * expiresIn
              lastTokenRefresh := env.now }])

/-- Record the account writes performed inside `getValidTokenForAccount`
(empty unless a refresh succeeded). -/
def withTokenWrites (env : Env) (w : World) (a : Automation) (s : St) : St :=
  { s with accountWrites :=
      s.accountWrites ++ (getValidTokenForAccount env w a.instagramAccountId).2 }

/-- Post resolution and processing for one automation (`index.js` lines
141-167): no target post means every post of the account, otherwise the
single target post (skipped when missing). -/
def runAutomationPosts (env : Env) (w : World) (a : Automation) (account : Account)
    (s : St) : St :=
  match a.postId with
  | none =>
    (w.posts.filter fun p => p.instagramAccountId == account.id).foldl
      (fun s p => processPostComments env a p s) s
  | some pid =>
    match w.posts.find? (fun p => p.id == pid) with
    | none => s
    | some post => processPostComments env a post s

/-- Per-automation body of the loop in `checkComments` (`index.js` lines
118-171): resolve the account, obtain a valid token (skip the automation
when none is available), then process the automation's posts. -/
def runAutomation (env : Env) (w : World) (s : St) (a : Automation) : St :=
  match w.accounts.find? (fun acc => acc.id == a.instagramAccountId) with
  | none => s
  | some account =>
    match (getValidTokenForAccount env w a.instagramAccountId).1 with
    | none => withTokenWrites env w a s
    | some _ => runAutomationPosts env w a account (withTokenWrites env w a s)

/-- `checkComments` (`index.js` lines 96-188): iterate the active
automations over the database state `s0` and build the run summary. The
summary's counters are the two `const`s initialised to `0` at lines
115-116 and only ever incremented through by-value parameters of
`processPostComments`, so the values reported are those constants. -/
def checkComments (env : Env) (w : World) (s0 : St) : RunSummary × St :=
  let activeAutomations := w.automations.filter fun a => a.active
  let totalProcessed := 0
  let totalSent := 0
  let s := activeAutomations.foldl (runAutomation env w) s0
  ({ success := true
     automationsProcessed := activeAutomations.length
     commentsProcessed := totalProcessed
     messagesSent := totalSent }, s)

/-- All `directMessages` records of the pair `(aid, u)`, any status. -/
def pairRecords (l : List DMRecord) (aid : Nat) (u : String) : List DMRecord :=
  l.filter fun r => r.automationId == aid && r.recipientUsername == u

/-- The `sent` records of kind `direct`/`opening` of the pair `(aid, u)`. -/
def sentPairRecords (l : List DMRecord) (aid : Nat) (u : String) : List DMRecord :=
  (pairRecords l aid u).filter fun r =>
    r.status == "sent" && (r.type == some "direct" || r.type == some "opening")

/-- The record the DM step appends: `failed` on lookup failure or send
failure, `sent` otherwise. -/
def dmResultRecord (env : Env) (a : Automation) (c : Comment) : DMRecord :=
  match env.lookup c.username with
  | none => failedDMRecord env a c
  | some _ => if env.dmOk then sentDMRecord env a c else failedDMRecord env a c

theorem failedDMRecord_automationId (env : Env) (a : Automation) (c : Comment) :
    (failedDMRecord env a c).automationId = a.id := rfl

theorem sentDMRecord_automationId (env : Env) (a : Automation) (c : Comment) :
    (sentDMRecord env a c).automationId = a.id := by
  unfold sentDMRecord; split <;> rfl

theorem dmResultRecord_automationId (env : Env) (a : Automation) (c : Comment) :
    (dmResultRecord env a c).automationId = a.id := by
  unfold dmResultRecord
  split
  · rfl
  · split
    · exact sentDMRecord_automationId env a c
    · rfl

theorem sentDMRecord_recipient (env : Env) (a : Automation) (c : Comment) :
    (sentDMRecord env a c).recipientUsername = c.username := by
  unfold sentDMRecord; split <;> rfl

theorem dmResultRecord_recipient (env : Env) (a : Automation) (c : Comment) :
    (dmResultRecord env a c).recipientUsername = c.username := by
  unfold dmResultRecord
  split
  · rfl
  · split
    · exact sentDMRecord_recipient env a c
    · rfl

theorem replyStep_directMessages (env : Env) (a : Automation) (c : Comment) (s : St) :
    (replyStep env a c s).directMessages = s.directMessages := by
  unfold replyStep
  split
  · split <;> rfl
  · rfl

theorem replyStep_dmCalls (env : Env) (a : Automation) (c : Comment) (s : St) :
    (replyStep env a c s).dmCalls = s.dmCalls := by
  unfold replyStep
  split
  · split <;> rfl
  · rfl

theorem replyStep_lastCheckedWrites (env : Env) (a : Automation) (c : Comment) (s : St) :
    (replyStep env a c s).lastCheckedWrites = s.lastCheckedWrites := by
  unfold replyStep
  split
  · split <;> rfl
  · rfl

theorem replyStep_fetchCalls (env : Env) (a : Automation) (c : Comment) (s : St) :
    (replyStep env a c s).fetchCalls = s.fetchCalls := by
  unfold replyStep
  split
  · split <;> rfl
  · rfl

theorem replyStep_accountWrites (env : Env) (a : Automation) (c : Comment) (s : St) :
    (replyStep env a c s).accountWrites = s.accountWrites := by
  unfold replyStep
  split
  · split <;> rfl
  · rfl

theorem dmStep_directMessages (env : Env) (a : Automation) (c : Comment) (s : St) :
    (dmStep env a c s).directMessages = s.directMessages ++ [dmResultRecord env a c] := by
  unfold dmStep dmResultRecord
  split
  · rfl
  · split <;> rfl

theorem dmStep_dmCalls (env : Env) (a : Automation) (c : Comment) (s : St) :
    (dmStep env a c s).dmCalls = s.dmCalls ++ [c.username] := by
  unfold dmStep
  split
  · rfl
  · split <;> rfl

theorem dmStep_commentReplies (env : Env) (a : Automation) (c : Comment) (s : St) :
    (dmStep env a c s).commentReplies = s.commentReplies := by
  unfold dmStep
  split
  · rfl
  · split <;> rfl

theorem dmStep_replyCalls (env : Env) (a : Automation) (c : Comment) (s : St) :
    (dmStep env a c s).replyCalls = s.replyCalls := by
  unfold dmStep
  split
  · rfl
  · split <;> rfl

theorem dmStep_lastCheckedWrites (env : Env) (a : Automation) (c : Comment) (s : St) :
    (dmStep env a c s).lastCheckedWrites = s.lastCheckedWrites := by
  unfold dmStep
  split
  · rfl
  · split <;> rfl

theorem dmStep_fetchCalls (env : Env) (a : Automation) (c : Comment) (s : St) :
    (dmStep env a c s).fetchCalls = s.fetchCalls := by
  unfold dmStep
  split
  · rfl
  · split <;> rfl

theorem dmStep_accountWrites (env : Env) (a : Automation) (c : Comment) (s : St) :
    (dmStep env a c s).accountWrites = s.accountWrites := by
  unfold dmStep
  split
  · rfl
  · split <;> rfl

theorem processComment_not_triggered (env : Env) (a : Automation) (s : St) (c : Comment)
    (h : triggerMatched a c = false) : processComment env a s c = s := by
  simp [processComment, h]

theorem processComment_existing (env : Env) (a : Automation) (s : St) (c : Comment)
    (h : hasExistingDM s a.id c.username = true) : processComment env a s c = s := by
  by_cases ht : triggerMatched a c = false <;> simp [processComment, ht, h]

theorem processComment_rateLimited (env : Env) (a : Automation) (s : St) (c : Comment)
    (h1 : triggerMatched a c = true) (h2 : hasExistingDM s a.id c.username = false)
    (h3 : rateLimitEff a ≤ recentSentCount s a.id env.now) :
    processComment env a s c = s := by
  simp [processComment, h1, h2, h3]

theorem processComment_dispatch (env : Env) (a : Automation) (s : St) (c : Comment)
    (h1 : triggerMatched a c = true) (h2 : hasExistingDM s a.id c.username = false)
    (h3 : recentSentCount s a.id env.now < rateLimitEff a) :
    processComment env a s c = dmStep env a c (replyStep env a c s) := by
  simp [processComment, h1, h2, Nat.not_le.mpr h3]

/-- The dedup invariant for one `(automation id, recipient)` pair: the
ledger holds at most one record for the pair, any status. -/
def pairOk (aid : Nat) (u : String) (s : St) : Prop :=
  (pairRecords s.directMessages aid u).length ≤ 1

theorem pairRecords_append (l1 l2 : List DMRecord) (aid : Nat) (u : String) :
    pairRecords (l1 ++ l2) aid u = pairRecords l1 aid u ++ pairRecords l2 aid u := by
  simp [pairRecords, List.filter_append]

theorem hasExistingDM_false_iff (s : St) (aid : Nat) (u : String) :
    hasExistingDM s aid u = false ↔ pairRecords s.directMessages aid u = [] := by
  rw [hasExistingDM, pairRecords]
  have h1 : ∀ o : Option DMRecord, (o.isSome = false) ↔ o = none := by
    intro o; cases o <;> simp
  rw [h1, List.find?_eq_none, List.filter_eq_nil_iff]

theorem pairOk_processComment (env : Env) (a : Automation) (s : St) (c : Comment)
    (aid : Nat) (u : String) (h : pairOk aid u s) :
    pairOk aid u (processComment env a s c) := by
  by_cases h1 : triggerMatched a c = false
  · rwa [processComment_not_triggered env a s c h1]
  · rw [Bool.not_eq_false] at h1
    by_cases h2 : hasExistingDM s a.id c.username = true
    · rwa [processComment_existing env a s c h2]
    · rw [Bool.not_eq_true] at h2
      by_cases h3 : rateLimitEff a ≤ recentSentCount s a.id env.now
      · rwa [processComment_rateLimited env a s c h1 h2 h3]
      · rw [Nat.not_le] at h3
        rw [pairOk, processComment_dispatch env a s c h1 h2 h3,
          dmStep_directMessages, replyStep_directMessages, pairRecords_append]
        by_cases hp : ((dmResultRecord env a c).automationId == aid &&
            (dmResultRecord env a c).recipientUsername == u) = true
        · have haid : a.id = aid := by
            have := (Bool.and_eq_true _ _).mp hp
            have h' := beq_iff_eq.mp this.1
            rwa [dmResultRecord_automationId] at h'
          have hu : c.username = u := by
            have := (Bool.and_eq_true _ _).mp hp
            have h' := beq_iff_eq.mp this.2
            rwa [dmResultRecord_recipient] at h'
          have hempty : pairRecords s.directMessages aid u = [] := by
            rw [← haid, ← hu]
            exact (hasExistingDM_false_iff s a.id c.username).mp h2
          rw [hempty]
          simp [pairRecords, List.filter, hp]
        · rw [Bool.not_eq_true] at hp
          have : pairRecords [dmResultRecord env a c] aid u = [] := by
            simp [pairRecords, List.filter, hp]
          rw [this, List.append_nil]
          exact h

/-- Preservation of a predicate along a left fold. -/
theorem foldl_preserve {α β : Type} {P : α → Prop} {f : α → β → α}
    (hf : ∀ x y, P x → P (f x y)) :
    ∀ (l : List β) (x : α), P x → P (l.foldl f x) := by
  intro l
  induction l with
  | nil => intro x hx; exact hx
  | cons y ys ih => intro x hx; exact ih (f x y) (hf x y hx)

theorem pairOk_processPostComments (env : Env) (a : Automation) (post : Post)
    (s : St) (aid : Nat) (u : String) (h : pairOk aid u s) :
    pairOk aid u (processPostComments env a post s) := by
  rw [processPostComments]
  refine foldl_preserve (fun x c hx => pairOk_processComment env a x c aid u hx) _ _ ?_
  exact h

theorem pairOk_withTokenWrites (env : Env) (w : World) (a : Automation) (s : St)
    (aid : Nat) (u : String) (h : pairOk aid u s) :
    pairOk aid u (withTokenWrites env w a s) := h

theorem pairOk_runAutomationPosts (env : Env) (w : World) (a : Automation)
    (account : Account) (s : St) (aid : Nat) (u : String) (h : pairOk aid u s) :
    pairOk aid u (runAutomationPosts env w a account s) := by
  rw [runAutomationPosts]
  split
  · exact foldl_preserve
      (fun x p hx => pairOk_processPostComments env a p x aid u hx) _ _ h
  · split
    · exact h
    · exact pairOk_processPostComments env a _ _ aid u h

theorem pairOk_runAutomation (env : Env) (w : World) (s : St) (a : Automation)
    (aid : Nat) (u : String) (h : pairOk aid u s) :
    pairOk aid u (runAutomation env w s a) := by
  rw [runAutomation]
  split
  · exact h
  · split
    · exact pairOk_withTokenWrites env w a s aid u h
    · exact pairOk_runAutomationPosts env w a _ _ aid u
        (pairOk_withTokenWrites env w a s aid u h)

theorem pairOk_checkComments (env : Env) (w : World) (s0 : St)
    (aid : Nat) (u : String) (h : pairOk aid u s0) :
    pairOk aid u (checkComments env w s0).2 := by
  rw [checkComments]
  exact foldl_preserve (fun x a hx => pairOk_runAutomation env w x a aid u hx) _ _ h

theorem sentPairRecords_length_le (l : List DMRecord) (aid : Nat) (u : String) :
    (sentPairRecords l aid u).length ≤ (pairRecords l aid u).length := by
  exact List.length_filter_le _ _

theorem startsWithList_iff (needle hay : List Char) :
    startsWithList hay needle = true ↔ ∃ rest, hay = needle ++ rest := by
  induction needle generalizing hay with
  | nil =>
    cases hay with
    | nil => simp [startsWithList]
    | cons a as => simp [startsWithList]
  | cons b bs ih =>
    cases hay with
    | nil => simp [startsWithList]
    | cons a as =>
      rw [startsWithList, Bool.and_eq_true, beq_iff_eq, ih]
      constructor
      · rintro ⟨rfl, r, rfl⟩
        exact ⟨r, rfl⟩
      · rintro ⟨r, hr⟩
        rw [List.cons_append, List.cons.injEq] at hr
        exact ⟨hr.1, r, hr.2⟩

theorem containsList_iff (hay needle : List Char) :
    containsList hay needle = true ↔ ∃ pre post, hay = pre ++ needle ++ post := by
  induction hay with
  | nil =>
    rw [containsList, startsWithList_iff]
    constructor
    · rintro ⟨r, hr⟩
      rcases List.append_eq_nil.mp hr.symm with ⟨h1, h2⟩
      exact ⟨[], [], by simp [h1, h2]⟩
    · rintro ⟨pre, post, hp⟩
      rcases List.append_eq_nil.mp hp.symm with ⟨h1, h2⟩
      rcases List.append_eq_nil.mp h1 with ⟨h3, h4⟩
      exact ⟨[], by simp [h4]⟩
  | cons a t ih =>
    rw [containsList, Bool.or_eq_true, startsWithList_iff, ih]
    constructor
    · rintro (⟨r, hr⟩ | ⟨pre, post, hp⟩)
      · exact ⟨[], r, by simp [hr]⟩
      · exact ⟨a :: pre, post, by simp [hp]⟩
    · rintro ⟨pre, post, hp⟩
      cases pre with
      | nil =>
        left
        exact ⟨post, by simpa using hp⟩
      | cons x xs =>
        right
        rw [List.cons_append, List.cons_append, List.cons.injEq] at hp
        exact ⟨xs, post, hp.2⟩

theorem triggerMatched_iff (a : Automation) (c : Comment) :
    triggerMatched a c = true ↔
      (a.triggerKeyword = "any" ∨
        ∃ pre post, jsToLower c.text = pre ++ jsToLower a.triggerKeyword ++ post) := by
  rw [triggerMatched, Bool.or_eq_true, beq_iff_eq, containsList_iff]

theorem processComment_cases (env : Env) (a : Automation) (s : St) (c : Comment) :
    processComment env a s c = s ∨
      (triggerMatched a c = true ∧ hasExistingDM s a.id c.username = false ∧
        recentSentCount s a.id env.now < rateLimitEff a ∧
        processComment env a s c = dmStep env a c (replyStep env a c s)) := by
  by_cases h1 : triggerMatched a c = false
  · exact Or.inl (processComment_not_triggered env a s c h1)
  · rw [Bool.not_eq_false] at h1
    by_cases h2 : hasExistingDM s a.id c.username = true
    · exact Or.inl (processComment_existing env a s c h2)
    · rw [Bool.not_eq_true] at h2
      by_cases h3 : rateLimitEff a ≤ recentSentCount s a.id env.now
      · exact Or.inl (processComment_rateLimited env a s c h1 h2 h3)
      · rw [Nat.not_le] at h3
        exact Or.inr ⟨h1, h2, h3, processComment_dispatch env a s c h1 h2 h3⟩

theorem processComment_lastCheckedWrites (env : Env) (a : Automation) (s : St)
    (c : Comment) :
    (processComment env a s c).lastCheckedWrites = s.lastCheckedWrites := by
  rcases processComment_cases env a s c with h | ⟨_, _, _, h⟩ <;> rw [h]
  rw [dmStep_lastCheckedWrites, replyStep_lastCheckedWrites]

theorem processComment_fetchCalls (env : Env) (a : Automation) (s : St)
    (c : Comment) :
    (processComment env a s c).fetchCalls = s.fetchCalls := by
  rcases processComment_cases env a s c with h | ⟨_, _, _, h⟩ <;> rw [h]
  rw [dmStep_fetchCalls, replyStep_fetchCalls]

theorem processComment_accountWrites (env : Env) (a : Automation) (s : St)
    (c : Comment) :
    (processComment env a s c).accountWrites = s.accountWrites := by
  rcases processComment_cases env a s c with h | ⟨_, _, _, h⟩ <;> rw [h]
  rw [dmStep_accountWrites, replyStep_accountWrites]

theorem foldl_processComment_lastCheckedWrites (env : Env) (a : Automation)
    (cs : List Comment) (s : St) :
    (cs.foldl (processComment env a) s).lastCheckedWrites = s.lastCheckedWrites := by
  induction cs generalizing s with
  | nil => rfl
  | cons c cs ih =>
    rw [List.foldl_cons, ih, processComment_lastCheckedWrites]

theorem foldl_processComment_fetchCalls (env : Env) (a : Automation)
    (cs : List Comment) (s : St) :
    (cs.foldl (processComment env a) s).fetchCalls = s.fetchCalls := by
  induction cs generalizing s with
  | nil => rfl
  | cons c cs ih =>
    rw [List.foldl_cons, ih, processComment_fetchCalls]

theorem processPostComments_lastCheckedWrites (env : Env) (a : Automation)
    (post : Post) (s : St) :
    (processPostComments env a post s).lastCheckedWrites =
      s.lastCheckedWrites ++ [(a.id, env.now)] := by
  simp only [processPostComments]
  rw [foldl_processComment_lastCheckedWrites]

theorem processPostComments_fetchCalls (env : Env) (a : Automation)
    (post : Post) (s : St) :
    (processPostComments env a post s).fetchCalls =
      s.fetchCalls ++ [(post.instagramId, a.lastChecked.getD 0)] := by
  simp only [processPostComments]
  rw [foldl_processComment_fetchCalls]

theorem foldl_processPostComments_lastCheckedWrites (env : Env) (a : Automation)
    (posts : List Post) (s : St) :
    ((posts.foldl (fun s p => processPostComments env a p s) s)).lastCheckedWrites =
      s.lastCheckedWrites ++ posts.map (fun _ => (a.id, env.now)) := by
  induction posts generalizing s with
  | nil => simp
  | cons p ps ih =>
    rw [List.foldl_cons, ih, processPostComments_lastCheckedWrites, List.map_cons]
    simp [List.append_assoc]

theorem foldl_processPostComments_fetchCalls (env : Env) (a : Automation)
    (posts : List Post) (s : St) :
    ((posts.foldl (fun s p => processPostComments env a p s) s)).fetchCalls =
      s.fetchCalls ++ posts.map (fun p => (p.instagramId, a.lastChecked.getD 0)) := by
  induction posts generalizing s with
  | nil => simp
  | cons p ps ih =>
    rw [List.foldl_cons, ih, processPostComments_fetchCalls, List.map_cons]
    simp [List.append_assoc]

theorem replyStep_commentReplies_sent (env : Env) (a : Automation) (c : Comment)
    (s : St) (h1 : a.replyToComments = true) (h2 : env.replyOk = true) :
    (replyStep env a c s).commentReplies = s.commentReplies ++
      [⟨a.id, c.id, c.username, a.commentReply, "sent", env.now⟩] := by
  simp [replyStep, h1, h2]

theorem replyStep_commentReplies_disabled (env : Env) (a : Automation) (c : Comment)
    (s : St) (h1 : a.replyToComments = false) :
    (replyStep env a c s).commentReplies = s.commentReplies := by
  simp [replyStep, h1]

theorem replyStep_commentReplies_failed (env : Env) (a : Automation) (c : Comment)
    (s : St) (h2 : env.replyOk = false) :
    (replyStep env a c s).commentReplies = s.commentReplies := by
  by_cases h1 : a.replyToComments <;> simp [replyStep, h1, h2]

theorem replyStep_replyCalls_enabled (env : Env) (a : Automation) (c : Comment)
    (s : St) (h1 : a.replyToComments = true) :
    (replyStep env a c s).replyCalls = s.replyCalls ++
      [(c.id, jsOrStr a.commentReply defaultCommentReply)] := by
  by_cases h2 : env.replyOk <;> simp [replyStep, h1, h2]

theorem dmResultRecord_lookup_failed (env : Env) (a : Automation) (c : Comment)
    (h : env.lookup c.username = none) :
    dmResultRecord env a c = failedDMRecord env a c := by
  rw [dmResultRecord, h]

/-- Base test environment: all remote calls succeed; the fetch yields one
comment by `bob` containing the word `love`. -/
def envA : Env where
  now := 10000000
  probeOk := fun _ => true
  refresh := fun _ => none
  fetch := fun _ _ => Except.ok [{ id := "c1", text := "WOW love this", username := "bob", timestamp := "t" }]
  lookup := fun _ => some "uid1"
  replyOk := true
  dmOk := true

/-- Base test automation: "any post" scope, keyword `Love`, comment
replies enabled with no custom text, plain message with branding. -/
def autoA : Automation where
  id := 1
  instagramAccountId := 5
  postId := none
  triggerKeyword := "Love"
  replyToComments := true
  commentReply := none
  useOpeningMessage := false
  openingMessage := none
  buttonText := none
  message := "Hi!"
  addBranding := true
  brandingMessage := some "⚡ via X"
  rateLimit := none
  lastChecked := some 5
  active := true

/-- Base test world: one account and two posts on file for it. -/
def worldA : World where
  automations := [autoA]
  accounts := [{ id := 5, username := "acct", instagramId := "ig5", accessToken := "tok" }]
  posts := [{ id := 7, instagramAccountId := 5, instagramId := "p7" }, { id := 8, instagramAccountId := 5, instagramId := "p8" }]

/-- C6: `getValidTokenForAccount` returns the stored credential with no
account write when the probe succeeds; performs exactly one account
update (new token, expiry `now + ttl`, refresh timestamp) and returns the
new token when the probe fails and the refresh succeeds; and returns
`none` with no account write when both fail, in which case the runner
skips the automation, leaving the state untouched. -/
theorem c6_token_flow :
    (∀ (env : Env) (w : World) (accountId : Nat) (account : Account),
      w.accounts.find? (fun acc => acc.id == accountId) = some account →
        (env.probeOk account.accessToken = true →
          getValidTokenForAccount env w accountId = (some account.accessToken, [])) ∧
        (∀ newToken expiresIn,
          env.probeOk account.accessToken = false →
          env.refresh account.accessToken = some (newToken, expiresIn) →
          getValidTokenForAccount env w accountId =
            (some newToken,
              [⟨account.id, newToken, env.now + 1000 * expiresIn, env.now⟩])) ∧
        (env.probeOk account.accessToken = false →
          env.refresh account.accessToken = none →
          getValidTokenForAccount env w accountId = (none, []))) ∧
    (∀ (env : Env) (w : World) (s : St) (a : Automation) (account : Account),
      w.accounts.find? (fun acc => acc.id == a.instagramAccountId) = some account →
      env.probeOk account.accessToken = false →
      env.refresh account.accessToken = none →
      runAutomation env w s a = s) := by
  have hnone : ∀ (env : Env) (w : World) (accountId : Nat) (account : Account),
      w.accounts.find? (fun acc => acc.id == accountId) = some account →
      env.probeOk account.accessToken = false →
      env.refresh account.accessToken = none →
      getValidTokenForAccount env w accountId = (none, []) := by
    intro env w accountId account hfind hp hr
    unfold getValidTokenForAccount
    rw [hfind]
    simp [hp, refreshInstagramToken, hr]
  constructor
  · intro env w accountId account hfind
    refine ⟨?_, ?_, hnone env w accountId account hfind⟩
    · intro hp
      unfold getValidTokenForAccount
      rw [hfind]
      simp [hp]
    · intro newToken expiresIn hp hr
      unfold getValidTokenForAccount
      rw [hfind]
      simp [hp, refreshInstagramToken, hr]
  · intro env w s a account hfind hp hr
    unfold runAutomation
    rw [hfind]
    have htok := hnone env w a.instagramAccountId account hfind hp hr
    rw [htok]
    simp [withTokenWrites, htok]

/-- C6 witness: a concrete account whose probe fails and whose refresh
succeeds gets exactly one account write with the refreshed credential. -/
theorem c6_token_flow_witness :
    getValidTokenForAccount
      { envA with probeOk := fun _ => false, refresh := fun _ => some ("tok2", 60) }
      worldA 5 =
      (some "tok2", [⟨5, "tok2", 10060000, 10000000⟩]) :=
  ((c6_token_flow.1
      { envA with probeOk := fun _ => false, refresh := fun _ => some ("tok2", 60) }
      worldA 5 { id := 5, username := "acct", instagramId := "ig5", accessToken := "tok" }
      (by decide)).2.1 "tok2" 60 rfl rfl)

/-- C7: with ceiling `rateLimitEff a`, a comment that has matched the
trigger and passed dedup is dispatched only when the count of `sent`
records in the trailing 60-minute window is strictly below the ceiling:
at or above it the state is returned unchanged (no record, no remote send
attempt), strictly below it the DM attempt is issued and exactly one
record appended. -/
theorem c7_rate_limit_window :
    (∀ (env : Env) (a : Automation) (s : St) (c : Comment),
      triggerMatched a c = true →
      hasExistingDM s a.id c.username = false →
      rateLimitEff a ≤ recentSentCount s a.id env.now →
      processComment env a s c = s) ∧
    (∀ (env : Env) (a : Automation) (s : St) (c : Comment),
      triggerMatched a c = true →
      hasExistingDM s a.id c.username = false →
      recentSentCount s a.id env.now < rateLimitEff a →
      (processComment env a s c).dmCalls = s.dmCalls ++ [c.username] ∧
      (processComment env a s c).directMessages =
        s.directMessages ++ [dmResultRecord env a c]) := by
  refine ⟨processComment_rateLimited, ?_⟩
  intro env a s c h1 h2 h3
  rw [processComment_dispatch env a s c h1 h2 h3]
  rw [dmStep_dmCalls, replyStep_dmCalls, dmStep_directMessages, replyStep_directMessages]
  exact ⟨rfl, rfl⟩

/-- A `sent` record inside the rate-limit window of `envA.now`. -/
def windowRecord : DMRecord where
  automationId := 1
  recipientUsername := "other"
  commentId := "x"
  message := some "m"
  type := some "direct"
  status := "sent"
  sentAt := 9990000

/-- A ledger holding ten `sent` records of automation 1 inside the
window. -/
def windowSt : St := { initSt with directMessages := List.replicate 10 windowRecord }

/-- The eleventh eligible comment for automation 1. -/
def commentB : Comment where
  id := "c11"
  text := "love it"
  username := "bob"
  timestamp := "t"

/-- C7 witness: ceiling 10 with 10 `sent` records in the window blocks
the 11th eligible comment, leaving the state unchanged. -/
theorem c7_rate_limit_window_witness :
    processComment envA { autoA with rateLimit := some 10 } windowSt commentB = windowSt :=
  c7_rate_limit_window.1 envA { autoA with rateLimit := some 10 } windowSt commentB
    (by decide) (by decide) (by decide)

/-- C8: the trigger test is true for every comment when the keyword is
the wildcard `"any"`, and otherwise exactly when the lower-cased comment
text contains the lower-cased keyword as a contiguous substring; an
unmatched comment leaves the state untouched (no dispatch, no record). -/
theorem c8_trigger_evaluation :
    (∀ (a : Automation) (c : Comment),
      triggerMatched a c = true ↔
        (a.triggerKeyword = "any" ∨
          ∃ pre post, jsToLower c.text = pre ++ jsToLower a.triggerKeyword ++ post)) ∧
    (∀ (env : Env) (a : Automation) (s : St) (c : Comment),
      triggerMatched a c = false → processComment env a s c = s) :=
  ⟨triggerMatched_iff, processComment_not_triggered⟩

/-- C8 witness: the wildcard matches an arbitrary comment, and a comment
not containing the keyword is dropped without any state change. -/
theorem c8_trigger_evaluation_witness :
    triggerMatched { autoA with triggerKeyword := "any" } commentB = true ∧
    processComment envA { autoA with triggerKeyword := "zzz" } initSt commentB = initSt :=
  ⟨(c8_trigger_evaluation.1 { autoA with triggerKeyword := "any" } commentB).mpr
      (Or.inl rfl),
   c8_trigger_evaluation.2 envA { autoA with triggerKeyword := "zzz" } initSt commentB
      (by decide)⟩

/-- C9: an absent `rateLimit` and the falsy stored value `0` both give
the effective ceiling 10; in particular with `rateLimit = 0` a dispatch
is still attempted while fewer than 10 `sent` records are in the window,
and blocked at 10. -/
theorem c9_default_rate_ceiling :
    (∀ a : Automation, a.rateLimit = none ∨ a.rateLimit = some 0 → rateLimitEff a = 10) ∧
    (∀ (env : Env) (a : Automation) (s : St) (c : Comment),
      a.rateLimit = some 0 →
      triggerMatched a c = true →
      hasExistingDM s a.id c.username = false →
      (recentSentCount s a.id env.now < 10 →
        (processComment env a s c).dmCalls = s.dmCalls ++ [c.username]) ∧
      (10 ≤ recentSentCount s a.id env.now → processComment env a s c = s)) := by
  have h10 : ∀ a : Automation, a.rateLimit = none ∨ a.rateLimit = some 0 →
      rateLimitEff a = 10 := by
    intro a h
    rcases h with h | h <;> simp [rateLimitEff, h]
  refine ⟨h10, ?_⟩
  intro env a s c h0 h1 h2
  have he : rateLimitEff a = 10 := h10 a (Or.inr h0)
  constructor
  · intro hlt
    rw [processComment_dispatch env a s c h1 h2 (by rw [he]; exact hlt),
      dmStep_dmCalls, replyStep_dmCalls]
  · intro hge
    exact processComment_rateLimited env a s c h1 h2 (by rw [he]; exact hge)

/-- C9 witness: with a stored ceiling of `0` and an empty window, the
eligible comment still produces a send attempt. -/
theorem c9_default_rate_ceiling_witness :
    (processComment envA { autoA with rateLimit := some 0 } initSt commentB).dmCalls =
      ["bob"] :=
  (c9_default_rate_ceiling.2 envA { autoA with rateLimit := some 0 } initSt commentB
    rfl (by decide) (by decide)).1 (by decide)

/-- C10: when comment replies are enabled and the reply call succeeds,
the persisted `commentReplies` record stores the raw `commentReply` field
while the text actually sent is `commentReply || default`; with an absent
`commentReply` the text sent is the default `"Thanks! Please check your
DMs."` and the persisted record's `reply` field is empty, so the audit
record's content differs from the text sent. -/
theorem c10_reply_record_raw :
    ∀ (env : Env) (a : Automation) (s : St) (c : Comment),
      triggerMatched a c = true →
      hasExistingDM s a.id c.username = false →
      recentSentCount s a.id env.now < rateLimitEff a →
      a.replyToComments = true →
      env.replyOk = true →
      (processComment env a s c).commentReplies = s.commentReplies ++
        [⟨a.id, c.id, c.username, a.commentReply, "sent", env.now⟩] ∧
      (processComment env a s c).replyCalls = s.replyCalls ++
        [(c.id, jsOrStr a.commentReply defaultCommentReply)] ∧
      (a.commentReply = none →
        jsOrStr a.commentReply defaultCommentReply = "Thanks! Please check your DMs.") := by
  intro env a s c h1 h2 h3 h4 h5
  rw [processComment_dispatch env a s c h1 h2 h3]
  refine ⟨?_, ?_, ?_⟩
  · rw [dmStep_commentReplies, replyStep_commentReplies_sent env a c s h4 h5]
  · rw [dmStep_replyCalls, replyStep_replyCalls_enabled env a c s h4]
  · intro h
    rw [h]
    rfl

/-- C10 witness: automation `autoA` has no `commentReply`; the persisted
record's `reply` is empty while the text sent is the default. -/
theorem c10_reply_record_raw_witness :
    (processComment envA autoA initSt commentB).commentReplies =
      [⟨1, "c11", "bob", none, "sent", 10000000⟩] ∧
    (processComment envA autoA initSt commentB).replyCalls =
      [("c11", "Thanks! Please check your DMs.")] :=
  ⟨(c10_reply_record_raw envA autoA initSt commentB (by decide) (by decide) (by decide)
      rfl rfl).1,
   (c10_reply_record_raw envA autoA initSt commentB (by decide) (by decide) (by decide)
      rfl rfl).2.1⟩

/-- C1: any prior `directMessages` record for the (automation, recipient)
pair — any status, including `failed` — makes the engine skip the comment
entirely (state unchanged, nothing sent); consequently a full run over a
database satisfying the at-most-one-record-per-pair invariant preserves
it, so after any number of sequential runs at most one `sent` record of
kind `direct`/`opening` exists per pair. -/
theorem c1_at_most_once_delivery :
    (∀ (env : Env) (a : Automation) (s : St) (c : Comment),
      hasExistingDM s a.id c.username = true → processComment env a s c = s) ∧
    (∀ (env : Env) (w : World) (s0 : St) (aid : Nat) (u : String),
      (pairRecords s0.directMessages aid u).length ≤ 1 →
      (pairRecords (checkComments env w s0).2.directMessages aid u).length ≤ 1 ∧
      (sentPairRecords (checkComments env w s0).2.directMessages aid u).length ≤ 1) := by
  refine ⟨processComment_existing, ?_⟩
  intro env w s0 aid u h
  have hp : pairOk aid u (checkComments env w s0).2 :=
    pairOk_checkComments env w s0 aid u h
  exact ⟨hp, le_trans (sentPairRecords_length_le _ aid u) hp⟩

/-- A ledger already holding one `failed` record for pair `(1, "bob")`. -/
def stPair : St :=
  { initSt with directMessages := [⟨1, "bob", "c0", some "m", none, "failed", 100⟩] }

/-- C1 witness: a prior failed record for `bob` suppresses processing of
his new matching comment, and a concrete full run keeps at most one
`sent` direct/opening record for the pair. -/
theorem c1_at_most_once_delivery_witness :
    processComment envA autoA stPair commentB = stPair ∧
    (sentPairRecords (checkComments envA worldA initSt).2.directMessages 1 "bob").length
      ≤ 1 :=
  ⟨c1_at_most_once_delivery.1 envA autoA stPair commentB (by decide),
   (c1_at_most_once_delivery.2 envA worldA initSt 1 "bob" (by decide)).2⟩

/-- C2 counterexample: `worldA` has two posts on file for the account of
"any post" automation `autoA`; one run writes the `lastChecked`
checkpoint twice — once per post — not exactly once. -/
theorem c2_checkpoint_counterexample :
    (worldA.posts.filter fun p => p.instagramAccountId == 5).length = 2 ∧
    (runAutomation envA worldA initSt autoA).lastCheckedWrites =
      [(1, 10000000), (1, 10000000)] ∧
    ¬ (runAutomation envA worldA initSt autoA).lastCheckedWrites.length = 1 := by
  exact ⟨by decide, by decide, by decide⟩

/-- C2 amended: an "any post" automation processes every post on file for
its account in one pass (one fetch per post, each with the same in-memory
`lastChecked` bound), and the shared `lastChecked` checkpoint is written
once per post — N times for N posts — rather than exactly once after all
posts. -/
theorem c2_checkpoint_per_post :
    ∀ (env : Env) (w : World) (s : St) (a : Automation) (account : Account)
      (tok : String),
      w.accounts.find? (fun acc => acc.id == a.instagramAccountId) = some account →
      (getValidTokenForAccount env w a.instagramAccountId).1 = some tok →
      a.postId = none →
      (runAutomation env w s a).lastCheckedWrites =
        s.lastCheckedWrites ++
          (w.posts.filter fun p => p.instagramAccountId == account.id).map
            (fun _ => (a.id, env.now)) ∧
      (runAutomation env w s a).fetchCalls =
        s.fetchCalls ++
          (w.posts.filter fun p => p.instagramAccountId == account.id).map
            (fun p => (p.instagramId, a.lastChecked.getD 0)) := by
  intro env w s a account tok hfind htok hpost
  unfold runAutomation
  rw [hfind, htok]
  unfold runAutomationPosts
  rw [hpost]
  constructor
  · rw [foldl_processPostComments_lastCheckedWrites]
    rfl
  · rw [foldl_processPostComments_fetchCalls]
    rfl

/-- C2 witness: the amended statement evaluated on `worldA`: two posts,
two checkpoint writes and two fetches in one pass. -/
theorem c2_checkpoint_per_post_witness :
    (runAutomation envA worldA initSt autoA).lastCheckedWrites =
      [(1, 10000000), (1, 10000000)] ∧
    (runAutomation envA worldA initSt autoA).fetchCalls = [("p7", 5), ("p8", 5)] := by
  have h := c2_checkpoint_per_post envA worldA initSt autoA
    { id := 5, username := "acct", instagramId := "ig5", accessToken := "tok" } "tok"
    (by decide) (by decide) rfl
  exact ⟨by rw [h.1]; rfl, by rw [h.2]; rfl⟩

/-- An environment whose comment fetch always fails. -/
def envFetchFail : Env := { envA with fetch := fun _ _ => Except.error () }

/-- The first post of `worldA`. -/
def postA : Post := { id := 7, instagramAccountId := 5, instagramId := "p7" }

/-- C3 counterexample: with a failing fetch the comment sequence is empty
and nothing is thrown, but the automation's checkpoint is not left
unchanged: `lastChecked` (previously 5) is written to `now`. -/
theorem c3_checkpoint_counterexample :
    getPostComments envFetchFail "p7" 5 = [] ∧
    autoA.lastChecked = some 5 ∧
    (processPostComments envFetchFail autoA postA initSt).lastCheckedWrites =
      [(1, 10000000)] ∧
    ¬ (processPostComments envFetchFail autoA postA initSt).lastCheckedWrites = [] := by
  exact ⟨rfl, rfl, by decide, by decide⟩

/-- C3 amended: a failing remote fetch yields an empty comment sequence
and no exception reaches the caller (`getPostComments` is total and
returns a plain list), the ledger is untouched for that post, but the
automation's `lastChecked` checkpoint is still written to the current
time. -/
theorem c3_fetch_failure :
    (∀ (env : Env) (postId : String) (since : Nat),
      env.fetch postId since = Except.error () →
      getPostComments env postId since = []) ∧
    (∀ (env : Env) (a : Automation) (post : Post) (s : St),
      env.fetch post.instagramId (a.lastChecked.getD 0) = Except.error () →
      (processPostComments env a post s).directMessages = s.directMessages ∧
      (processPostComments env a post s).lastCheckedWrites =
        s.lastCheckedWrites ++ [(a.id, env.now)]) := by
  have hg : ∀ (env : Env) (postId : String) (since : Nat),
      env.fetch postId since = Except.error () →
      getPostComments env postId since = [] := by
    intro env postId since h
    unfold getPostComments
    rw [h]
  refine ⟨hg, ?_⟩
  intro env a post s h
  constructor
  · simp only [processPostComments]
    rw [hg env post.instagramId (a.lastChecked.getD 0) h]
    rfl
  · exact processPostComments_lastCheckedWrites env a post s

/-- C3 witness: the amended statement at the concrete failing fetch. -/
theorem c3_fetch_failure_witness :
    getPostComments envFetchFail "p7" 5 = [] ∧
    (processPostComments envFetchFail autoA postA initSt).directMessages = [] :=
  ⟨c3_fetch_failure.1 envFetchFail "p7" 5 rfl,
   (c3_fetch_failure.2 envFetchFail autoA postA initSt rfl).1⟩

/-- An environment in which the recipient handle never resolves. -/
def envLookupFail : Env := { envA with lookup := fun _ => none }

/-- C4 counterexample: an unresolvable handle does not leave the ledger
without a record — the engine inserts a `failed` `directMessages` record
for the comment's DM step. -/
theorem c4_lookup_counterexample :
    (processComment envLookupFail autoA initSt commentB).directMessages =
      [⟨1, "bob", "c11", some "Hi!", none, "failed", 10000000⟩] ∧
    ¬ (processComment envLookupFail autoA initSt commentB).directMessages = [] := by
  exact ⟨by decide, by decide⟩

/-- C4 amended: when the recipient handle cannot be resolved the DM step
is aborted before the message POST, and the abort is recorded as a
`directMessages` record with status `failed` (rather than no record); a
comment reply already attempted stands independently. -/
theorem c4_lookup_failure :
    ∀ (env : Env) (a : Automation) (s : St) (c : Comment),
      triggerMatched a c = true →
      hasExistingDM s a.id c.username = false →
      recentSentCount s a.id env.now < rateLimitEff a →
      env.lookup c.username = none →
      (processComment env a s c).directMessages =
        s.directMessages ++ [failedDMRecord env a c] ∧
      (failedDMRecord env a c).status = "failed" ∧
      (a.replyToComments = true → env.replyOk = true →
        (processComment env a s c).commentReplies = s.commentReplies ++
          [⟨a.id, c.id, c.username, a.commentReply, "sent", env.now⟩]) := by
  intro env a s c h1 h2 h3 h4
  rw [processComment_dispatch env a s c h1 h2 h3]
  refine ⟨?_, rfl, ?_⟩
  · rw [dmStep_directMessages, replyStep_directMessages,
      dmResultRecord_lookup_failed env a c h4]
  · intro hr1 hr2
    rw [dmStep_commentReplies, replyStep_commentReplies_sent env a c s hr1 hr2]

/-- C4 witness: the amended statement at a concrete unresolvable handle:
one `failed` record for the DM step, while the comment reply stands. -/
theorem c4_lookup_failure_witness :
    (processComment envLookupFail autoA initSt commentB).directMessages =
      [failedDMRecord envLookupFail autoA commentB] ∧
    (processComment envLookupFail autoA initSt commentB).commentReplies =
      [⟨1, "c11", "bob", none, "sent", 10000000⟩] :=
  ⟨(c4_lookup_failure envLookupFail autoA initSt commentB (by decide) (by decide)
      (by decide) rfl).1,
   (c4_lookup_failure envLookupFail autoA initSt commentB (by decide) (by decide)
      (by decide) rfl).2.2 rfl rfl⟩

/-- C5: the summary counters returned by `checkComments` are always zero
— the two `const` accumulators are passed by value and never updated — so
a run that demonstrably fetched a comment and sent a DM (one stats write,
one DM call) still reports `commentsProcessed = 0` and
`messagesSent = 0`, contradicting the spec's accumulated totals. -/
theorem c5_summary_counters :
    (∀ (env : Env) (w : World) (s0 : St),
      (checkComments env w s0).1.commentsProcessed = 0 ∧
      (checkComments env w s0).1.messagesSent = 0) ∧
    ((checkComments envA worldA initSt).2.statWrites.length = 1 ∧
     (checkComments envA worldA initSt).2.dmCalls = ["bob"] ∧
     (getPostComments envA "p7" 5).length = 1) := by
  constructor
  · intro env w s0
    exact ⟨rfl, rfl⟩
  · exact ⟨by decide, by decide, by decide⟩
